import Mathlib

/-
Verification of the AzanApp schedule-resolution engine.

The definitions below are a shallow embedding of the decision logic in
src/Backend/server.js (the Event / EventSchedule Sequelize models, the
GET /api/events/today/list resolver loop, the POST /api/events and
PUT /api/events/:id normalisation, and the per-minute cron check), plus
the admin client's event payload shape from
src/admin-panel/src/components/EventForm.jsx.

The source stores calendar dates as ISO `YYYY-MM-DD` DATEONLY strings and
times of day as `HH:MM` strings, compared with JavaScript string
comparison (`>=`, `<=`, `localeCompare`).  On zero-padded ISO strings that
order coincides with lexicographic order on (year, month, day), resp.
(hour, minute), so dates and times are modelled as numeric records with
lexicographic comparison.
-/

namespace Azan

/-- A calendar date (the `DATEONLY` columns `date`, `start_date`,
`end_date` in server.js). -/
structure DateD where
  year : Nat
  month : Nat
  day : Nat
deriving DecidableEq, Repr

/-- Date comparison: the source compares ISO `YYYY-MM-DD` strings with
`>=` / `<=` (server.js line 498) and SQL `Op.lte` / `Op.gte`
(lines 729-730); on zero-padded dates this is lexicographic order. -/
def dle (a b : DateD) : Bool :=
  decide (a.year < b.year ∨ (a.year = b.year ∧
    (a.month < b.month ∨ (a.month = b.month ∧ a.day ≤ b.day))))

/-- A time of day at minute resolution (the `HH:MM` strings in the
`time` / `fixed_time` columns). -/
structure TimeS where
  hh : Nat
  mm : Nat
deriving DecidableEq, Repr

/-- Time comparison: the source compares `HH:MM` strings with
`localeCompare` (server.js line 521); on zero-padded times this is
lexicographic order. -/
def tle (a b : TimeS) : Bool :=
  decide (a.hh < b.hh ∨ (a.hh = b.hh ∧ a.mm ≤ b.mm))

/-- The Voice model (server.js lines 105-131), as far as the resolver
reads it (name and sound file, passed through to the output). -/
structure Voice where
  name : String
  soundFile : String
  isActive : Bool
deriving DecidableEq, Repr

/-- An EventSchedule row (server.js lines 198-227): a per-date custom
time for one event. -/
structure Sched where
  eventId : Nat
  date : DateD
  time : TimeS
deriving DecidableEq, Repr

/-- The Event model (server.js lines 134-195) together with its loaded
associations (`voice`, `schedules`), as fetched by the resolver's
`Event.findAll({ include: [voice, schedules] })`.  `scheduleMode` and
`timeMode` are kept as strings, as in the source (the enum constraints
are modelled at the create/update boundary, see `createdEvent`).
The model has no weekday or inactive-day columns. -/
structure Event where
  id : Nat
  name : String
  type : String
  voiceId : Nat
  scheduleMode : String
  startDate : Option DateD
  endDate : Option DateD
  timeMode : String
  fixedTime : Option TimeS
  isActive : Bool
  voice : Option Voice
  schedules : List Sched
deriving DecidableEq, Repr

/-- `event.startDate && event.endDate && today >= event.startDate &&
today <= event.endDate` (server.js line 498): both bounds present and
the date inside the inclusive range.  The cron queries for range events
(server.js lines 729-730, `Op.lte` / `Op.gte` on non-null columns)
impose the same condition. -/
def inRange (e : Event) (today : DateD) : Bool :=
  match e.startDate, e.endDate with
  | some s, some en => dle s today && dle today en
  | _, _ => false

/-- The per-event time resolution, the loop body of
GET /api/events/today/list (server.js lines 492-507):
daily mode returns `fixedTime` unconditionally; any other mode requires
both bounds and the date in range, then uses `fixedTime` when
`timeMode` is `fixed` and otherwise the schedule row found for the date
(`schedule ? schedule.time : null` — no fallback). -/
def resolveTime (e : Event) (today : DateD) : Option TimeS :=
  if e.scheduleMode = "daily" then
    e.fixedTime
  else
    if inRange e today then
      if e.timeMode = "fixed" then
        e.fixedTime
      else
        (e.schedules.find? (fun sc => sc.date == today)).map (fun sc => sc.time)
    else
      none

/-- Date resolution for a single event: the composition of the route's
`where: { isActive: true }` filter (server.js line 483) with the loop
body `resolveTime`.  An event excluded by the filter contributes
nothing, i.e. resolves to Absent (`none`). -/
def resolve (e : Event) (today : DateD) : Option TimeS :=
  if e.isActive then resolveTime e today else none

/-- One entry of the today-list output (server.js lines 510-517). -/
structure TodayEvent where
  id : Nat
  name : String
  type : String
  time : TimeS
  voiceName : Option String
  soundFile : Option String
deriving DecidableEq, Repr

/-- Builds the output record pushed for a resolved event
(server.js lines 510-517). -/
def mkTodayEvent (e : Event) (t : TimeS) : TodayEvent :=
  { id := e.id, name := e.name, type := e.type, time := t,
    voiceName := e.voice.map (fun v => v.name),
    soundFile := e.voice.map (fun v => v.soundFile) }

/-- The unsorted today list: active events whose resolution is present
(the `todayEvents` array before the final sort). -/
def todayRaw (events : List Event) (today : DateD) : List TodayEvent :=
  (events.filter (fun e => e.isActive)).filterMap
    (fun e => (resolveTime e today).map (mkTodayEvent e))

/-- The sort comparator `(a, b) => a.time.localeCompare(b.time)`
(server.js line 521). -/
def teLe (a b : TodayEvent) : Bool := tle a.time b.time

/-- GET /api/events/today/list: resolve every active event for the date
and sort ascending by time.  JavaScript `Array.prototype.sort` is
guaranteed stable, modelled by `List.mergeSort`. -/
def todayList (events : List Event) (today : DateD) : List TodayEvent :=
  (todayRaw events today).mergeSort teLe

/-- Cron branch 1 (server.js lines 713-720): active daily events whose
`fixedTime` equals the current minute. -/
def cronDaily (events : List Event) (t : TimeS) : List Event :=
  events.filter (fun e =>
    e.isActive && e.scheduleMode == "daily" && e.fixedTime == some t)

/-- Cron branch 2 (server.js lines 723-733): active date-range events
with fixed time mode, `fixedTime` equal to the current minute, and
today inside the inclusive bounds. -/
def cronRangeFixed (events : List Event) (today : DateD) (t : TimeS) : List Event :=
  events.filter (fun e =>
    e.isActive && e.scheduleMode == "date_range" && e.timeMode == "fixed" &&
      e.fixedTime == some t && inRange e today)

/-- Cron branch 3 (server.js lines 736-747): schedule rows matching
(today, current minute), joined to their active owning event; each
matching row contributes its event (`customSchedules.map(s => s.event)`).
No condition on the event's schedule mode or date bounds. -/
def cronCustom (events : List Event) (today : DateD) (t : TimeS) : List Event :=
  (events.filter (fun e => e.isActive)).flatMap
    (fun e => (e.schedules.filter (fun s => s.date == today && s.time == t)).map
      (fun _ => e))

/-- The per-minute trigger set (server.js lines 749-753):
`[...dailyEvents, ...rangeFixedEvents, ...customSchedules.map(s => s.event)]`. -/
def cronTriggers (events : List Event) (today : DateD) (t : TimeS) : List Event :=
  cronDaily events t ++ cronRangeFixed events today t ++ cronCustom events today t

/-- One schedule entry of the request payload (`schedules` array items
with `date` and `time`). -/
structure SchedInput where
  date : DateD
  time : TimeS
deriving DecidableEq, Repr

/-- The event payload built by the admin client
(src/admin-panel/src/components/EventForm.jsx, lines 151-165): it
includes `weekdays` and `inactiveDays` and allows
`scheduleMode = "weekly"`, none of which exist in the backend model. -/
structure ClientEvent where
  name : String
  type : String
  voiceId : Nat
  scheduleMode : String
  weekdays : List Nat
  inactiveDays : List Nat
  startDate : Option DateD
  endDate : Option DateD
  timeMode : String
  fixedTime : Option TimeS
  isActive : Option Bool
  schedules : List SchedInput
deriving DecidableEq, Repr

/-- The stored field normalisation shared by POST /api/events
(server.js lines 567-577) and PUT /api/events/:id (lines 610-620):
bounds kept only for `date_range`, `timeMode` forced to `fixed` for
`daily`, `fixedTime` kept only when `scheduleMode` is `daily` or the
requested `timeMode` is `fixed`, `isActive` defaulting to true.
`weekdays` and `inactiveDays` are not destructured from the body and are
dropped.  Schedule rows are created only for `date_range` + `custom`
(lines 580-584, 624-628).  Returns `none` when the enum columns
(`schedule_mode` in ('daily','date_range'), `time_mode` in
('fixed','custom'), server.js lines 157-162 and 173-178) reject the
value, in which case the write fails and nothing is stored. -/
def storedFields (newId : Nat) (inp : ClientEvent) : Option Event :=
  if (inp.scheduleMode = "daily" ∨ inp.scheduleMode = "date_range") ∧
      ((if inp.scheduleMode = "daily" then "fixed" else inp.timeMode) = "fixed" ∨
        (if inp.scheduleMode = "daily" then "fixed" else inp.timeMode) = "custom")
  then
    some
      { id := newId
        name := inp.name
        type := inp.type
        voiceId := inp.voiceId
        scheduleMode := inp.scheduleMode
        startDate := if inp.scheduleMode = "date_range" then inp.startDate else none
        endDate := if inp.scheduleMode = "date_range" then inp.endDate else none
        timeMode := if inp.scheduleMode = "daily" then "fixed" else inp.timeMode
        fixedTime :=
          if inp.scheduleMode = "daily" ∨ inp.timeMode = "fixed" then inp.fixedTime
          else none
        isActive := inp.isActive.getD true
        voice := none
        schedules :=
          if inp.scheduleMode = "date_range" ∧ inp.timeMode = "custom" then
            inp.schedules.map (fun s =>
              { eventId := newId, date := s.date, time := s.time })
          else [] }
  else
    none

/-- POST /api/events (server.js lines 563-598): the persisted event for
a fresh id (the voice association is resolved by the store and not
modelled). -/
def createdEvent (newId : Nat) (inp : ClientEvent) : Option Event :=
  storedFields newId inp

/-- PUT /api/events/:id (server.js lines 601-641): overwrites every
normalised field of the existing event and replaces its schedule rows;
only the id survives from the old row. -/
def updatedEvent (old : Event) (inp : ClientEvent) : Option Event :=
  storedFields old.id inp

/-- Weekday index of a date, 0 = Sunday .. 6 = Saturday, as computed by
`new Date(d).getDay()` in EventForm.jsx (line 86); Zeller's congruence
shifted so that 0 is Sunday. -/
def wd (d : DateD) : Nat :=
  let m := if d.month ≤ 2 then d.month + 12 else d.month
  let y := if d.month ≤ 2 then d.year - 1 else d.year
  let k := y % 100
  let j := y / 100
  (d.day + (13 * (m + 1)) / 5 + k + k / 4 + j / 4 + 5 * j + 6) % 7

/-- A custom-time date-range event with both an override row for
2024-03-05 and a (hypothetical) fixed time, for exercising the
no-fallback behaviour. -/
def eC1 : Event :=
  { id := 1, name := "fajr", type := "azan", voiceId := 1,
    scheduleMode := "date_range",
    startDate := some ⟨2024, 3, 1⟩, endDate := some ⟨2024, 3, 10⟩,
    timeMode := "custom", fixedTime := some ⟨5, 0⟩, isActive := true,
    voice := none,
    schedules := [{ eventId := 1, date := ⟨2024, 3, 5⟩, time := ⟨5, 10⟩ }] }

/-- A client payload for a fixed-time date-range event that lists
weekday 2 (Tuesday) as an inactive day. -/
def inpC2 : ClientEvent :=
  { name := "maghrib", type := "azan", voiceId := 1,
    scheduleMode := "date_range", weekdays := [], inactiveDays := [2],
    startDate := some ⟨2024, 3, 1⟩, endDate := some ⟨2024, 3, 10⟩,
    timeMode := "fixed", fixedTime := some ⟨18, 30⟩, isActive := some true,
    schedules := [] }

/-- The event stored for `inpC2` under id 7 (see `c2_counterexample`). -/
def eC2v : Event :=
  { id := 7, name := "maghrib", type := "azan", voiceId := 1,
    scheduleMode := "date_range",
    startDate := some ⟨2024, 3, 1⟩, endDate := some ⟨2024, 3, 10⟩,
    timeMode := "fixed", fixedTime := some ⟨18, 30⟩, isActive := true,
    voice := none, schedules := [] }

/-- A client payload requesting the weekly mode offered by the admin
form (Mon and Wed selected, no bounds). -/
def inpC3 : ClientEvent :=
  { name := "weekly-ann", type := "announcement", voiceId := 1,
    scheduleMode := "weekly", weekdays := [1, 3], inactiveDays := [],
    startDate := none, endDate := none,
    timeMode := "fixed", fixedTime := some ⟨5, 0⟩, isActive := some true,
    schedules := [] }

/-- An event row carrying the weekly mode directly (as the claim's
premise supposes), active, fixed 05:00, no bounds. -/
def eC3 : Event :=
  { id := 3, name := "weekly-ann", type := "announcement", voiceId := 1,
    scheduleMode := "weekly", startDate := none, endDate := none,
    timeMode := "fixed", fixedTime := some ⟨5, 0⟩, isActive := true,
    voice := none, schedules := [] }

/-- A daily-mode event that (contrary to what the API stores) carries
date bounds, to test whether resolution honours them. -/
def eC4 : Event :=
  { id := 4, name := "dhuhr", type := "azan", voiceId := 1,
    scheduleMode := "daily",
    startDate := some ⟨2024, 3, 1⟩, endDate := some ⟨2024, 3, 10⟩,
    timeMode := "fixed", fixedTime := some ⟨5, 0⟩, isActive := true,
    voice := none, schedules := [] }

/-- The spec's worked date-range example: 2024-03-01 .. 2024-03-10,
fixed 05:00, active. -/
def eC5 : Event :=
  { id := 5, name := "isha", type := "azan", voiceId := 1,
    scheduleMode := "date_range",
    startDate := some ⟨2024, 3, 1⟩, endDate := some ⟨2024, 3, 10⟩,
    timeMode := "fixed", fixedTime := some ⟨5, 0⟩, isActive := true,
    voice := none, schedules := [] }

/-- An inactive event whose every other field would make it fire. -/
def eC6 : Event :=
  { id := 6, name := "asr", type := "azan", voiceId := 1,
    scheduleMode := "daily", startDate := none, endDate := none,
    timeMode := "fixed", fixedTime := some ⟨16, 0⟩, isActive := false,
    voice := none, schedules := [⟨6, ⟨2024, 3, 5⟩, ⟨16, 0⟩⟩] }

/-- A misconfigured event: date-range mode with no start bound and a
fixed time mode with no time. -/
def eC7 : Event :=
  { id := 70, name := "broken", type := "azan", voiceId := 1,
    scheduleMode := "date_range", startDate := none,
    endDate := some ⟨2024, 3, 10⟩,
    timeMode := "fixed", fixedTime := none, isActive := true,
    voice := none, schedules := [] }

/-- A date-range fixed event firing 05:00 over 2024-03-01..10. -/
def e8a : Event :=
  { id := 81, name := "range-first", type := "azan", voiceId := 1,
    scheduleMode := "date_range",
    startDate := some ⟨2024, 3, 1⟩, endDate := some ⟨2024, 3, 10⟩,
    timeMode := "fixed", fixedTime := some ⟨5, 0⟩, isActive := true,
    voice := none, schedules := [] }

/-- A daily event also firing at 05:00. -/
def e8b : Event :=
  { id := 82, name := "daily-second", type := "azan", voiceId := 1,
    scheduleMode := "daily", startDate := none, endDate := none,
    timeMode := "fixed", fixedTime := some ⟨5, 0⟩, isActive := true,
    voice := none, schedules := [] }

/-- A client payload for a date-range event with custom times,
submitted with a (to-be-discarded) fixedTime. -/
def inpC9 : ClientEvent :=
  { name := "ramadan", type := "announcement", voiceId := 2,
    scheduleMode := "date_range", weekdays := [], inactiveDays := [],
    startDate := some ⟨2024, 3, 11⟩, endDate := some ⟨2024, 4, 9⟩,
    timeMode := "custom", fixedTime := some ⟨4, 30⟩, isActive := some true,
    schedules := [{ date := ⟨2024, 3, 11⟩, time := ⟨4, 45⟩ }] }

/-- The event stored for `inpC9` under id 9 (fixedTime discarded). -/
def eC9v : Event :=
  { id := 9, name := "ramadan", type := "announcement", voiceId := 2,
    scheduleMode := "date_range",
    startDate := some ⟨2024, 3, 11⟩, endDate := some ⟨2024, 4, 9⟩,
    timeMode := "custom", fixedTime := none, isActive := true,
    voice := none, schedules := [⟨9, ⟨2024, 3, 11⟩, ⟨4, 45⟩⟩] }

/-- A daily-mode event owning a custom schedule row (a configuration
the API never produces, but which the cron custom branch accepts). -/
def eC10 : Event :=
  { id := 10, name := "stray", type := "announcement", voiceId := 1,
    scheduleMode := "daily", startDate := none, endDate := none,
    timeMode := "fixed", fixedTime := some ⟨12, 0⟩, isActive := true,
    voice := none, schedules := [⟨10, ⟨2024, 3, 5⟩, ⟨7, 45⟩⟩] }

/-- C1 counterexample: eC1 is a custom-time event, eligible (in range)
on both 2024-03-05 and 2024-03-06, with an override 05:10 for 03-05
only and fixedTime 05:00 set; the code uses the override on 03-05 but,
contrary to the claim, returns Absent rather than the 05:00 fallback on
03-06 (`schedule ? schedule.time : null` has no fallback). -/
theorem c1_counterexample :
    eC1.timeMode = "custom" ∧ eC1.fixedTime = some ⟨5, 0⟩ ∧
    eC1.isActive = true ∧
    inRange eC1 ⟨2024, 3, 5⟩ = true ∧ inRange eC1 ⟨2024, 3, 6⟩ = true ∧
    resolve eC1 ⟨2024, 3, 5⟩ = some ⟨5, 10⟩ ∧
    eC1.schedules.find? (fun s => s.date == ⟨2024, 3, 6⟩) = none ∧
    resolve eC1 ⟨2024, 3, 6⟩ = none := by
  decide

/-- C1 amended: for a custom-time (non-fixed, non-daily) event the
resolution is independent of fixedTime, and on an eligible date it
equals the override lookup itself — the override's time when a row for
the date exists, Absent when none does, even when fixedTime is set. -/
theorem c1_custom_no_fallback (e : Event) (d : DateD) (t : Option TimeS)
    (hm : e.scheduleMode ≠ "daily") (hc : e.timeMode ≠ "fixed") :
    resolve { e with fixedTime := t } d = resolve e d ∧
    (e.isActive = true → inRange e d = true →
      resolve e d =
        (e.schedules.find? (fun sc => sc.date == d)).map (fun sc => sc.time)) := by
  constructor
  · simp [resolve, resolveTime, inRange, hm, hc]
  · intro ha hr
    simp [resolve, resolveTime, ha, hr, hm, hc]

/-- C1 amended, instantiated at eC1: the override date 2024-03-05
resolves to the override time 05:10, the override-free date 2024-03-06
to Absent, and fixedTime does not influence the result. -/
theorem c1_custom_no_fallback_witness :
    resolve { eC1 with fixedTime := some ⟨6, 0⟩ } ⟨2024, 3, 6⟩ =
      resolve eC1 ⟨2024, 3, 6⟩ ∧
    resolve eC1 ⟨2024, 3, 5⟩ = some ⟨5, 10⟩ ∧
    resolve eC1 ⟨2024, 3, 6⟩ = none :=
  ⟨(c1_custom_no_fallback eC1 ⟨2024, 3, 6⟩ (some ⟨6, 0⟩) (by decide)
      (by decide)).1,
   ((c1_custom_no_fallback eC1 ⟨2024, 3, 5⟩ (some ⟨6, 0⟩) (by decide)
      (by decide)).2 (by decide) (by decide)).trans (by decide),
   ((c1_custom_no_fallback eC1 ⟨2024, 3, 6⟩ (some ⟨6, 0⟩) (by decide)
      (by decide)).2 (by decide) (by decide)).trans (by decide)⟩

/-- C2 counterexample: inpC2 lists weekday 2 as inactive; 2024-03-05 is
a Tuesday (weekday 2) inside the range, yet the event created from
inpC2 resolves to 18:30 on it — the backend stores no inactive days and
resolution never consults the weekday. -/
theorem c2_counterexample :
    inpC2.inactiveDays.contains (wd ⟨2024, 3, 5⟩) = true ∧
    createdEvent 7 inpC2 = some eC2v ∧
    resolve eC2v ⟨2024, 3, 5⟩ = some ⟨18, 30⟩ := by
  decide

/-- C2 amended: the create and update handlers drop the client's
weekdays and inactiveDays fields, so the stored event — and hence
resolution — is independent of them; an active fixed-time non-daily
event in range resolves to its fixed time on every date in range,
whatever the date's weekday. -/
theorem c2_inactive_days_ignored (n : Nat) (old : Event) (inp : ClientEvent)
    (w i : List Nat) (e : Event) (d : DateD) :
    createdEvent n { inp with weekdays := w, inactiveDays := i } =
      createdEvent n inp ∧
    updatedEvent old { inp with weekdays := w, inactiveDays := i } =
      updatedEvent old inp ∧
    (e.isActive = true → e.scheduleMode ≠ "daily" → e.timeMode = "fixed" →
      inRange e d = true → resolve e d = e.fixedTime) := by
  refine ⟨rfl, rfl, fun ha hm ht hr => ?_⟩
  simp [resolve, resolveTime, ha, hm, ht, hr]

/-- C2 amended, instantiated: adding inactive day 2 to inpC2 does not
change the stored event, and eC2v still resolves on Tuesday
2024-03-05. -/
theorem c2_inactive_days_ignored_witness :
    createdEvent 7 { inpC2 with weekdays := [0], inactiveDays := [2, 5] } =
      createdEvent 7 inpC2 ∧
    resolve eC2v ⟨2024, 3, 5⟩ = eC2v.fixedTime :=
  ⟨(c2_inactive_days_ignored 7 eC2v inpC2 [0] [2, 5] eC2v ⟨2024, 3, 5⟩).1,
   (c2_inactive_days_ignored 7 eC2v inpC2 [0] [2, 5] eC2v ⟨2024, 3, 5⟩).2.2
     (by decide) (by decide) (by decide) (by decide)⟩

/-- C3 counterexample: the admin form's weekly payload (Mon, Wed, no
bounds, fixed 05:00) is rejected by the schedule_mode enum and never
stored; and on an event row carrying the weekly mode directly, the
resolver returns Absent on Monday 2024-03-04 (weekday 1) instead of the
claimed 05:00 — weekdays are never consulted. -/
theorem c3_counterexample :
    inpC3.weekdays = [1, 3] ∧
    createdEvent 3 inpC3 = none ∧
    eC3.scheduleMode = "weekly" ∧ eC3.isActive = true ∧
    eC3.fixedTime = some ⟨5, 0⟩ ∧
    wd ⟨2024, 3, 4⟩ = 1 ∧
    resolve eC3 ⟨2024, 3, 4⟩ = none := by
  decide

/-- C3 amended: the backend supports only the daily and date_range
modes — a weekly payload is rejected by the enum and never stored; and
the resolver treats any non-daily mode through date bounds alone, so
with a bound missing it returns Absent on every date, never consulting
weekdays. -/
theorem c3_no_weekly_mode (n : Nat) (inp : ClientEvent) (e : Event) (d : DateD)
    (hw : inp.scheduleMode = "weekly") (hm : e.scheduleMode ≠ "daily")
    (hb : e.startDate = none ∨ e.endDate = none) :
    createdEvent n inp = none ∧ resolve e d = none := by
  constructor
  · simp [createdEvent, storedFields, hw]
  · have hr : inRange e d = false := by
      rcases hb with h | h
      · simp [inRange, h]
      · cases hs : e.startDate <;> simp [inRange, h, hs]
    cases ha : e.isActive <;> simp [resolve, resolveTime, ha, hm, hr]

/-- C3 amended, instantiated at inpC3 and eC3 on Monday 2024-03-04. -/
theorem c3_no_weekly_mode_witness :
    createdEvent 3 inpC3 = none ∧ resolve eC3 ⟨2024, 3, 4⟩ = none :=
  c3_no_weekly_mode 3 inpC3 eC3 ⟨2024, 3, 4⟩ rfl (by decide) (Or.inl rfl)

/-- C4 counterexample: eC4 is an active daily event carrying bounds
2024-03-01..2024-03-10; 2024-03-15 falls outside them, yet resolution
returns 05:00 — the daily branch never looks at the bounds. -/
theorem c4_counterexample :
    eC4.scheduleMode = "daily" ∧ eC4.isActive = true ∧
    eC4.startDate = some ⟨2024, 3, 1⟩ ∧ eC4.endDate = some ⟨2024, 3, 10⟩ ∧
    dle ⟨2024, 3, 15⟩ ⟨2024, 3, 10⟩ = false ∧
    resolve eC4 ⟨2024, 3, 15⟩ = some ⟨5, 0⟩ := by
  decide

/-- C4 amended: a daily-mode event resolves to its fixed time (when
active) on every date — startDate and endDate are ignored entirely in
daily mode. -/
theorem c4_daily_ignores_bounds (e : Event) (d : DateD)
    (hm : e.scheduleMode = "daily") :
    resolve e d = if e.isActive then e.fixedTime else none := by
  simp [resolve, resolveTime, hm]

/-- C4 amended, instantiated at eC4 on 2024-03-15 (outside its
bounds). -/
theorem c4_daily_ignores_bounds_witness :
    resolve eC4 ⟨2024, 3, 15⟩ =
      if eC4.isActive then eC4.fixedTime else none :=
  c4_daily_ignores_bounds eC4 ⟨2024, 3, 15⟩ rfl

/-- C5: an active fixed-time date-range event resolves to its fixed
time on a date exactly when both bounds are present and
startDate ≤ date ≤ endDate (inclusive); with a bound missing it
resolves to Absent on every date. -/
theorem c5_date_range_inclusive (e : Event) (d : DateD) (t : TimeS)
    (ha : e.isActive = true) (hm : e.scheduleMode = "date_range")
    (htm : e.timeMode = "fixed") (hft : e.fixedTime = some t) :
    (resolve e d = some t ↔
      ∃ s en, e.startDate = some s ∧ e.endDate = some en ∧
        dle s d = true ∧ dle d en = true) ∧
    ((e.startDate = none ∨ e.endDate = none) → resolve e d = none) := by
  have hm' : e.scheduleMode ≠ "daily" := by rw [hm]; decide
  constructor
  · cases hs : e.startDate with
    | none => simp [resolve, resolveTime, ha, hm', htm, hft, inRange, hs]
    | some s =>
      cases hen : e.endDate with
      | none => simp [resolve, resolveTime, ha, hm', htm, hft, inRange, hs, hen]
      | some en =>
        by_cases hb : (dle s d && dle d en) = true
        · simp only [Bool.and_eq_true] at hb
          simp [resolve, resolveTime, ha, hm', htm, hft, inRange, hs, hen,
            hb.1, hb.2]
        · simp only [Bool.and_eq_true, not_and_or, Bool.not_eq_true] at hb
          rcases hb with h | h <;>
            simp [resolve, resolveTime, ha, hm', htm, hft, inRange, hs, hen, h]
  · intro hb
    have hr : inRange e d = false := by
      rcases hb with h | h
      · simp [inRange, h]
      · cases hs : e.startDate <;> simp [inRange, h, hs]
    simp [resolve, resolveTime, ha, hm', hr]

/-- C5 instantiated at the spec's example: bounds 2024-03-01..10 are
inclusive at both ends, and dates just outside are Absent. -/
theorem c5_date_range_inclusive_witness :
    resolve eC5 ⟨2024, 3, 1⟩ = some ⟨5, 0⟩ ∧
    resolve eC5 ⟨2024, 3, 10⟩ = some ⟨5, 0⟩ ∧
    resolve eC5 ⟨2024, 2, 28⟩ = none ∧
    resolve eC5 ⟨2024, 3, 11⟩ = none :=
  ⟨(c5_date_range_inclusive eC5 ⟨2024, 3, 1⟩ ⟨5, 0⟩ rfl rfl rfl rfl).1.mpr
      ⟨⟨2024, 3, 1⟩, ⟨2024, 3, 10⟩, rfl, rfl, by decide, by decide⟩,
   (c5_date_range_inclusive eC5 ⟨2024, 3, 10⟩ ⟨5, 0⟩ rfl rfl rfl rfl).1.mpr
      ⟨⟨2024, 3, 1⟩, ⟨2024, 3, 10⟩, rfl, rfl, by decide, by decide⟩,
   by decide, by decide⟩

/-- C6: an inactive event resolves to Absent on every date and never
appears in any per-minute trigger set, independent of all other
fields. -/
theorem c6_inactive_never_fires (e : Event) (ha : e.isActive = false) :
    (∀ d, resolve e d = none) ∧
    (∀ evs d t, e ∉ cronTriggers evs d t) := by
  refine ⟨fun d => by simp [resolve, ha], fun evs d t hmem => ?_⟩
  simp [cronTriggers, cronDaily, cronRangeFixed, cronCustom,
    List.mem_append, List.mem_filter, List.mem_flatMap, List.mem_map,
    ha] at hmem

/-- C6 instantiated at the inactive event eC6, whose fixed time and
schedule row would otherwise fire at 16:00 on 2024-03-05. -/
theorem c6_inactive_never_fires_witness :
    resolve eC6 ⟨2024, 3, 5⟩ = none ∧
    eC6 ∉ cronTriggers [eC6] ⟨2024, 3, 5⟩ ⟨16, 0⟩ :=
  ⟨(c6_inactive_never_fires eC6 rfl).1 ⟨2024, 3, 5⟩,
   (c6_inactive_never_fires eC6 rfl).2 [eC6] ⟨2024, 3, 5⟩ ⟨16, 0⟩⟩

/-- C7: resolution is a total function into an optional time — it
always yields a result or Absent, never an error — and it fails closed
on misconfiguration: a non-daily event missing a bound, a daily event
without a fixed time, and a non-daily fixed-time event without a fixed
time all resolve to Absent on every date. -/
theorem c7_total_fail_closed (e : Event) (d : DateD) :
    (resolve e d = none ∨ ∃ t, resolve e d = some t) ∧
    (e.scheduleMode ≠ "daily" → (e.startDate = none ∨ e.endDate = none) →
      resolve e d = none) ∧
    (e.scheduleMode = "daily" → e.fixedTime = none → resolve e d = none) ∧
    (e.scheduleMode ≠ "daily" → e.timeMode = "fixed" → e.fixedTime = none →
      resolve e d = none) := by
  refine ⟨?_, ?_, ?_, ?_⟩
  · cases h : resolve e d with
    | none => exact Or.inl rfl
    | some t => exact Or.inr ⟨t, rfl⟩
  · intro hm hb
    have hr : inRange e d = false := by
      rcases hb with h | h
      · simp [inRange, h]
      · cases hs : e.startDate <;> simp [inRange, h, hs]
    cases ha : e.isActive <;> simp [resolve, resolveTime, ha, hm, hr]
  · intro hm hf
    cases ha : e.isActive <;> simp [resolve, resolveTime, ha, hm, hf]
  · intro hm ht hf
    cases ha : e.isActive <;> cases hr : inRange e d <;>
      simp [resolve, resolveTime, ha, hm, ht, hf, hr]

/-- C7 instantiated at the misconfigured event eC7 (date-range mode
with a missing start bound, fixed time mode with no time): Absent. -/
theorem c7_total_fail_closed_witness :
    resolve eC7 ⟨2024, 3, 5⟩ = none :=
  (c7_total_fail_closed eC7 ⟨2024, 3, 5⟩).2.1 (by decide) (Or.inl rfl)

/-- The time comparator is transitive. -/
theorem tle_trans (a b c : TimeS) (h1 : tle a b = true) (h2 : tle b c = true) :
    tle a c = true := by
  simp [tle] at h1 h2 ⊢
  omega

/-- The time comparator is total. -/
theorem tle_total (a b : TimeS) : (tle a b || tle b a) = true := by
  simp [tle]
  omega

/-- C8 counterexample: e8a (date-range fixed) and e8b (daily) both fire
at 05:00 on 2024-03-05; with input order [e8a, e8b] the per-minute
trigger set is [e8b, e8a] — the daily branch is emitted first, so ties
are broken by branch, not by the events' relative input order. -/
theorem c8_counterexample :
    e8b ≠ e8a ∧
    resolve e8a ⟨2024, 3, 5⟩ = some ⟨5, 0⟩ ∧
    resolve e8b ⟨2024, 3, 5⟩ = some ⟨5, 0⟩ ∧
    cronTriggers [e8a, e8b] ⟨2024, 3, 5⟩ ⟨5, 0⟩ = [e8b, e8a] := by
  decide

/-- C8 amended: the today-list preview is sorted ascending by effective
time, is a permutation of the per-event resolution results, and is
stable (any time-sorted sublist of the raw results, in particular any
run of equal-time results in input order, survives as a sublist of the
output); the per-minute trigger set contains only active events and is
grouped by branch (daily, then range-fixed, then custom) rather than
sorted by input order.  Both are pure functions, hence deterministic. -/
theorem c8_preview_sorted_stable (events : List Event) (d : DateD) :
    (todayList events d).Pairwise (fun a b => teLe a b = true) ∧
    (todayList events d).Perm (todayRaw events d) ∧
    (∀ c : List TodayEvent, c.Pairwise (fun a b => teLe a b = true) →
      c.Sublist (todayRaw events d) → c.Sublist (todayList events d)) ∧
    (∀ evs t e, e ∈ cronTriggers evs d t → e.isActive = true) := by
  have htrans : ∀ a b c : TodayEvent,
      teLe a b = true → teLe b c = true → teLe a c = true :=
    fun a b c h1 h2 => tle_trans a.time b.time c.time h1 h2
  have htotal : ∀ a b : TodayEvent, (teLe a b || teLe b a) = true :=
    fun a b => tle_total a.time b.time
  refine ⟨List.sorted_mergeSort htrans htotal _, List.mergeSort_perm _ _,
    fun c hp hsub => List.sublist_mergeSort htrans htotal hp hsub,
    fun evs t e hmem => ?_⟩
  simp only [cronTriggers, List.mem_append] at hmem
  rcases hmem with (h | h) | h
  · have hp := (List.mem_filter.mp h).2
    simp only [Bool.and_eq_true] at hp
    exact hp.1.1
  · have hp := (List.mem_filter.mp h).2
    simp only [Bool.and_eq_true] at hp
    exact hp.1.1.1.1
  · rcases List.mem_flatMap.mp h with ⟨a, hafil, hmap⟩
    rcases List.mem_map.mp hmap with ⟨s, _, heq⟩
    exact heq ▸ (List.mem_filter.mp hafil).2

/-- C8 amended, instantiated: the raw one-event result list survives
the sort as a sublist, and a member of a concrete trigger set is
active. -/
theorem c8_preview_sorted_stable_witness :
    (todayRaw [e8a] ⟨2024, 3, 5⟩).Sublist (todayList [e8a] ⟨2024, 3, 5⟩) ∧
    e8b.isActive = true :=
  ⟨(c8_preview_sorted_stable [e8a] ⟨2024, 3, 5⟩).2.2.1 _ (by decide)
      (List.Sublist.refl _),
   (c8_preview_sorted_stable [e8a] ⟨2024, 3, 5⟩).2.2.2 [e8b] ⟨5, 0⟩ e8b
      (by decide)⟩

/-- Shape of any event row written through the shared field
normalisation. -/
theorem storedFields_shape (m : Nat) (inp : ClientEvent) (e : Event)
    (h : storedFields m inp = some e) :
    (e.scheduleMode ≠ "date_range" → e.startDate = none ∧ e.endDate = none) ∧
    (e.scheduleMode = "daily" → e.timeMode = "fixed") ∧
    (e.scheduleMode ≠ "daily" → e.timeMode ≠ "fixed" → e.fixedTime = none) ∧
    (e.scheduleMode = "date_range" → e.timeMode = "custom" →
      e.fixedTime = none) := by
  by_cases hd : inp.scheduleMode = "daily"
  · simp [storedFields, hd] at h
    subst h
    exact ⟨fun _ => ⟨rfl, rfl⟩, fun _ => rfl,
      fun hm _ => absurd rfl hm, fun h4 _ => absurd h4 (by simp)⟩
  · by_cases hr : inp.scheduleMode = "date_range"
    · by_cases htf : inp.timeMode = "fixed"
      · simp [storedFields, hd, hr, htf] at h
        subst h
        exact ⟨fun hmod => absurd rfl hmod, fun h2 => absurd h2 (by simp),
          fun _ hf => absurd rfl hf, fun _ h4 => absurd h4 (by simp)⟩
      · by_cases htc : inp.timeMode = "custom"
        · simp [storedFields, hd, hr, htf, htc] at h
          subst h
          exact ⟨fun hmod => absurd rfl hmod, fun h2 => absurd h2 (by simp),
            fun _ _ => rfl, fun _ _ => rfl⟩
        · simp [storedFields, hd, hr, htf, htc] at h
    · simp [storedFields, hd, hr] at h

/-- C9: events persisted through create and through update satisfy the
same stored-shape invariant — bounds are null unless the mode is
date_range, the time mode is forced to fixed for daily events, and
fixedTime is null unless the mode is daily or the time mode is fixed;
in particular a date-range event with custom time mode is stored with
no fixedTime. -/
theorem c9_stored_shape (n : Nat) (old : Event) (inp : ClientEvent) :
    (∀ e, createdEvent n inp = some e →
      (e.scheduleMode ≠ "date_range" → e.startDate = none ∧ e.endDate = none) ∧
      (e.scheduleMode = "daily" → e.timeMode = "fixed") ∧
      (e.scheduleMode ≠ "daily" → e.timeMode ≠ "fixed" → e.fixedTime = none) ∧
      (e.scheduleMode = "date_range" → e.timeMode = "custom" →
        e.fixedTime = none)) ∧
    (∀ e, updatedEvent old inp = some e →
      (e.scheduleMode ≠ "date_range" → e.startDate = none ∧ e.endDate = none) ∧
      (e.scheduleMode = "daily" → e.timeMode = "fixed") ∧
      (e.scheduleMode ≠ "daily" → e.timeMode ≠ "fixed" → e.fixedTime = none) ∧
      (e.scheduleMode = "date_range" → e.timeMode = "custom" →
        e.fixedTime = none)) :=
  ⟨fun e h => storedFields_shape n inp e h,
   fun e h => storedFields_shape old.id inp e h⟩

/-- C9 instantiated: the date-range + custom payload inpC9 is stored
with fixedTime discarded. -/
theorem c9_stored_shape_witness :
    createdEvent 9 inpC9 = some eC9v ∧ eC9v.fixedTime = none :=
  ⟨by decide,
   ((c9_stored_shape 9 eC10 inpC9).1 eC9v (by decide)).2.2.2 rfl rfl⟩

/-- C10: the cron custom-schedule branch ignores the owning event's
recurrence configuration — any active event carrying a schedule row for
(today, current minute) is in the trigger set, with no condition on its
schedule mode or date bounds. -/
theorem c10_custom_branch_unconditional (evs : List Event) (d : DateD)
    (t : TimeS) (e : Event) (s : Sched) (he : e ∈ evs)
    (ha : e.isActive = true) (hs : s ∈ e.schedules) (hd : s.date = d)
    (ht : s.time = t) :
    e ∈ cronTriggers evs d t := by
  have hfil : e ∈ evs.filter (fun e => e.isActive) :=
    List.mem_filter.mpr ⟨he, ha⟩
  have hrow : s ∈ e.schedules.filter (fun s => s.date == d && s.time == t) :=
    List.mem_filter.mpr ⟨hs, by simp [hd, ht]⟩
  have hcust : e ∈ cronCustom evs d t :=
    List.mem_flatMap.mpr ⟨e, hfil, List.mem_map.mpr ⟨s, hrow, rfl⟩⟩
  simp only [cronTriggers, List.mem_append]
  exact Or.inr hcust

/-- C10 instantiated: the daily-mode event eC10 (not date_range, no
bounds) is triggered at 07:45 on 2024-03-05 purely through its schedule
row. -/
theorem c10_custom_branch_unconditional_witness :
    eC10 ∈ cronTriggers [eC10] ⟨2024, 3, 5⟩ ⟨7, 45⟩ ∧
    eC10.scheduleMode = "daily" :=
  ⟨c10_custom_branch_unconditional [eC10] ⟨2024, 3, 5⟩ ⟨7, 45⟩ eC10
     ⟨10, ⟨2024, 3, 5⟩, ⟨7, 45⟩⟩ (by decide) rfl (by decide) rfl rfl,
   rfl⟩

end Azan
